import Mathlib

/-!
Verification of the CPH UHF RFID protocol library (framing codec, TLV codec,
command layer, parameter structs, dispatcher cleanup) against its
natural-language specification.

Bytes are modelled as `List Nat` (each entry intended to be < 256; the Python
`bytes` type guarantees this at the boundary and theorems carry it as a
hypothesis where it matters).  Fallible Python functions (those that may raise)
are modelled as `Except PyErr`-valued functions; each raised exception class is
mapped to one `PyErr` constructor.
-/

set_option maxRecDepth 4096

/-- Error kinds corresponding to the exception classes the source can raise. -/
inductive PyErr where
  | frameParseError
  | checksumError
  | valueError
  | tlvParseError
  | protocolError
  | attributeError
  deriving DecidableEq, Repr

namespace Framing

/-- Constant FRAME_HEADER from constants.py: the two bytes of b"RF". -/
def FRAME_HEADER : List Nat := [0x52, 0x46]

/-- Constant MIN_FRAME_LENGTH from constants.py: header(2) + type(1) + address(2)
    + code(1) + param-length(2) + checksum(1) = 9. -/
def MIN_FRAME_LENGTH : Nat := 9

/-- Embeds calculate_checksum from framing.py: sum of all bytes masked to one
    byte, then two's complement; for s = sum % 256 this equals (256 - s) % 256. -/
def calculate_checksum (data : List Nat) : Nat :=
  (256 - data.sum % 256) % 256

/-- Embeds build_frame from framing.py.  Validates the ranges exactly as the
    source does, packs the header with struct format >2sBHBH (big-endian) and
    appends the checksum.  A raised ValueError is the .error valueError case. -/
def build_frame (frame_type address frame_code : Nat) (parameters : List Nat) :
    Except PyErr (List Nat) :=
  if ¬ frame_type ≤ 2 then .error .valueError
  else if ¬ address ≤ 0xFFFF then .error .valueError
  else if ¬ frame_code ≤ 0xFF then .error .valueError
  else if ¬ parameters.length ≤ 0xFFFF then .error .valueError
  else
    let param_len := parameters.length
    let frame_without_checksum :=
      [0x52, 0x46, frame_type, address / 256, address % 256, frame_code,
       param_len / 256, param_len % 256] ++ parameters
    .ok (frame_without_checksum ++ [calculate_checksum frame_without_checksum])

/-- Embeds bytes.find applied to the two-byte needle b"RF": the least index at
    which 0x52 is immediately followed by 0x46, if any. -/
def findRF : List Nat → Nat → Option Nat
  | [], _ => none
  | a :: rest, i =>
      if a = 0x52 ∧ rest.head? = some 0x46 then some i else findRF rest (i + 1)

/-- Embeds parse_frame_header from framing.py.  Returns
    (frame_type, address, frame_code, declared_param_len, parameters,
     expected_total_length, start_index) or the corresponding error kind. -/
def parse_frame_header (data : List Nat) :
    Except PyErr (Nat × Nat × Nat × Nat × List Nat × Nat × Nat) :=
  if ¬ MIN_FRAME_LENGTH ≤ data.length then .error .frameParseError
  else
    match findRF data 0 with
    | none => .error .frameParseError
    | some start_index =>
        if ¬ start_index + MIN_FRAME_LENGTH ≤ data.length then .error .frameParseError
        else
          -- struct.unpack of data[start : start+8] with format >2sBHBH
          let hdr := (data.drop start_index).take 8
          let frame_type := hdr.getD 2 0
          let address := hdr.getD 3 0 * 256 + hdr.getD 4 0
          let frame_code := hdr.getD 5 0
          let declared_param_len := hdr.getD 6 0 * 256 + hdr.getD 7 0
          let expected_total_length := 8 + declared_param_len + 1
          if ¬ start_index + expected_total_length ≤ data.length then .error .frameParseError
          else
            let full_frame_data := (data.drop start_index).take expected_total_length
            let frame_content := full_frame_data.take (expected_total_length - 1)
            let received_checksum := full_frame_data.getD (expected_total_length - 1) 0
            if ¬ calculate_checksum frame_content = received_checksum then
              .error .checksumError
            else
              let parameters := (frame_content.drop 8).take declared_param_len
              .ok (frame_type, address, frame_code, declared_param_len,
                   parameters, expected_total_length, start_index)

/-- Embeds find_and_parse_frame from framing.py.  The bytearray argument is
    modelled by passing the buffer in and returning the buffer after the
    in-place deletions; the first component is the return value. -/
def find_and_parse_frame (buffer : List Nat) :
    Option (Nat × Nat × Nat × List Nat × Nat) × List Nat :=
  if ¬ MIN_FRAME_LENGTH ≤ buffer.length then (none, buffer)
  else
    match parse_frame_header buffer with
    | .ok (frame_type, address, frame_code, _, parameters, consumed_length, start_index) =>
        (some (frame_type, address, frame_code, parameters, consumed_length),
         buffer.drop (start_index + consumed_length))
    | .error .frameParseError | .error .checksumError =>
        -- recovery branch of the except (FrameParseError, ChecksumError) clause
        (match findRF buffer 0 with
         | some start_index => (none, buffer.drop (start_index + 2))
         | none => (none, buffer))
    | .error _ => (none, buffer)  -- the except ValueError clause

end Framing

namespace Framing

theorem findRF_cons_hit (rest : List Nat) (i : Nat) :
    findRF (0x52 :: 0x46 :: rest) i = some i := by
  simp [findRF]

end Framing

/-- Helper: getD just past a list fetches a singleton appendage. -/
theorem getD_append_singleton (l : List Nat) (x d : Nat) :
    (l ++ [x]).getD l.length d = x := by
  induction l with
  | nil => rfl
  | cons a t ih => simpa using ih

/-- Helper: parse_frame_header on a frame given in cons form with a correct
    declared length and the checksum appended recovers every field. -/
theorem parse_frame_header_exact (ft a1 a2 code p1 p2 : Nat) (params : List Nat)
    (hdecl : p1 * 256 + p2 = params.length) :
    Framing.parse_frame_header
      (0x52 :: 0x46 :: ft :: a1 :: a2 :: code :: p1 :: p2 ::
        (params ++ [Framing.calculate_checksum
          (0x52 :: 0x46 :: ft :: a1 :: a2 :: code :: p1 :: p2 :: params)])) =
      Except.ok (ft, a1 * 256 + a2, code, params.length, params,
        params.length + 9, 0) := by
  set c := Framing.calculate_checksum
    (0x52 :: 0x46 :: ft :: a1 :: a2 :: code :: p1 :: p2 :: params) with hc
  set L : List Nat := 0x52 :: 0x46 :: ft :: a1 :: a2 :: code :: p1 :: p2 ::
    (params ++ [c]) with hL
  have hlen : L.length = params.length + 9 := by simp [hL] <;> omega
  have hfind : Framing.findRF L 0 = some 0 := Framing.findRF_cons_hit _ 0
  unfold Framing.parse_frame_header
  rw [if_neg (not_not_intro (by rw [hlen]; simp [Framing.MIN_FRAME_LENGTH]))]
  simp only [hfind]
  rw [if_neg (not_not_intro (by rw [hlen]; simp [Framing.MIN_FRAME_LENGTH]))]
  have h8 : List.take 8 (List.drop 0 L) = [0x52, 0x46, ft, a1, a2, code, p1, p2] := by
    rw [hL]; rfl
  rw [h8]
  have hgd2 : ([0x52, 0x46, ft, a1, a2, code, p1, p2] : List Nat).getD 2 0 = ft := rfl
  have hgd3 : ([0x52, 0x46, ft, a1, a2, code, p1, p2] : List Nat).getD 3 0 = a1 := rfl
  have hgd4 : ([0x52, 0x46, ft, a1, a2, code, p1, p2] : List Nat).getD 4 0 = a2 := rfl
  have hgd5 : ([0x52, 0x46, ft, a1, a2, code, p1, p2] : List Nat).getD 5 0 = code := rfl
  have hgd6 : ([0x52, 0x46, ft, a1, a2, code, p1, p2] : List Nat).getD 6 0 = p1 := rfl
  have hgd7 : ([0x52, 0x46, ft, a1, a2, code, p1, p2] : List Nat).getD 7 0 = p2 := rfl
  rw [hgd2, hgd3, hgd4, hgd5, hgd6, hgd7, hdecl]
  rw [if_neg (not_not_intro (by rw [hlen]; omega))]
  have hsplit : L = ([0x52, 0x46, ft, a1, a2, code, p1, p2] ++ params) ++ [c] := by
    rw [hL]; rfl
  have hfull : List.take (8 + params.length + 1) (List.drop 0 L) = L := by
    rw [List.drop_zero]
    rw [show 8 + params.length + 1 = L.length by omega]
    exact List.take_length _
  rw [hfull]
  have harith : 8 + params.length + 1 - 1 = 8 + params.length := by omega
  rw [harith]
  have hcontent : List.take (8 + params.length) L =
      [0x52, 0x46, ft, a1, a2, code, p1, p2] ++ params := by
    rw [hsplit]
    exact List.take_left' (by simp <;> omega)
  rw [hcontent]
  have hl8 : (([0x52, 0x46, ft, a1, a2, code, p1, p2] : List Nat) ++ params).length =
      8 + params.length := by simp <;> omega
  have hrecv : L.getD (8 + params.length) 0 = c := by
    rw [hsplit, ← hl8]
    exact getD_append_singleton _ _ _
  rw [hrecv]
  have hcksum : Framing.calculate_checksum
      (([0x52, 0x46, ft, a1, a2, code, p1, p2] : List Nat) ++ params) = c := hc.symm
  rw [if_neg (not_not_intro hcksum)]
  have hdrop8 : List.drop 8 (([0x52, 0x46, ft, a1, a2, code, p1, p2] : List Nat)
      ++ params) = params := rfl
  rw [hdrop8, List.take_length]
  rw [show 8 + params.length + 1 = params.length + 9 by omega]

/-- C1: for every frame_type in 0..2, every address at most 0xFFFF, every
    frame_code at most 0xFF and every parameter byte string of length at most
    0xFFFF, parse_frame_header applied to the output of build_frame succeeds
    and returns exactly (frame_type, address, frame_code, parameter length,
    parameters, total frame length, start index 0). -/
theorem frame_build_parse_roundtrip (ft addr code : Nat) (params : List Nat)
    (h1 : ft ≤ 2) (h2 : addr ≤ 0xFFFF) (h3 : code ≤ 0xFF)
    (h4 : params.length ≤ 0xFFFF) :
    (Framing.build_frame ft addr code params).bind Framing.parse_frame_header =
      Except.ok (ft, addr, code, params.length, params, params.length + 9, 0) := by
  have hb : Framing.build_frame ft addr code params =
      Except.ok (([0x52, 0x46, ft, addr / 256, addr % 256, code,
        params.length / 256, params.length % 256] ++ params) ++
        [Framing.calculate_checksum
          ([0x52, 0x46, ft, addr / 256, addr % 256, code,
            params.length / 256, params.length % 256] ++ params)]) := by
    simp [Framing.build_frame, h1, h2, h3, h4]
  rw [hb]
  have h := parse_frame_header_exact ft (addr / 256) (addr % 256) code
    (params.length / 256) (params.length % 256) params (by omega)
  rw [show addr / 256 * 256 + addr % 256 = addr by omega] at h
  exact h

/-- Witness for frame_build_parse_roundtrip at a concrete input. -/
theorem frame_build_parse_roundtrip_witness :
    (Framing.build_frame 1 0 0x40 [0x07, 0x01, 0x00]).bind Framing.parse_frame_header =
      Except.ok (1, 0, 0x40, 3, [0x07, 0x01, 0x00], 12, 0) :=
  frame_build_parse_roundtrip 1 0 0x40 [0x07, 0x01, 0x00]
    (by decide) (by decide) (by decide) (by decide)

/-- C9: find_and_parse_frame is a total function of the buffer (the embedding
    returns normally on every input) and its only effect on the buffer is the
    deletion of a prefix: the post-call buffer is always a drop of the
    pre-call buffer. -/
theorem find_and_parse_frame_only_deletes_prefix (buffer : List Nat) :
    ∃ k, k ≤ buffer.length ∧
      (Framing.find_and_parse_frame buffer).2 = buffer.drop k := by
  have hdrop : ∃ k, (Framing.find_and_parse_frame buffer).2 = buffer.drop k := by
    unfold Framing.find_and_parse_frame
    split
    · exact ⟨0, rfl⟩
    · split
      · exact ⟨_, rfl⟩
      · split
        · exact ⟨_, rfl⟩
        · exact ⟨0, rfl⟩
      · split
        · exact ⟨_, rfl⟩
        · exact ⟨0, rfl⟩
      · exact ⟨0, rfl⟩
  obtain ⟨k, hk⟩ := hdrop
  by_cases h : k ≤ buffer.length
  · exact ⟨k, h, hk⟩
  · refine ⟨buffer.length, le_rfl, ?_⟩
    rw [hk, List.drop_length, List.drop_eq_nil_of_le (by omega)]

/-- C3 failing input: a nine-byte buffer that starts with the RF header and
    declares five parameter bytes (so the frame is incomplete: fourteen bytes
    would be needed) makes find_and_parse_frame return none but also discard
    the two header bytes, leaving the buffer changed. -/
theorem find_and_parse_frame_incomplete_discards_header :
    Framing.find_and_parse_frame [0x52, 0x46, 0, 0, 0, 0x40, 0, 5, 1] =
      (none, [0, 0, 0, 0x40, 0, 5, 1]) ∧
    ([0, 0, 0, 0x40, 0, 5, 1] : List Nat) ≠ [0x52, 0x46, 0, 0, 0, 0x40, 0, 5, 1] :=
  ⟨rfl, by decide⟩

/-- Python values produced by the TLV codec.  Dictionaries keyed by strings
    (field-name dicts) and by integers (tag maps) are association lists in
    insertion order, floats produced by the codec are exact images of byte
    values and are carried as integers. -/
inductive PVal where
  | pint : Int → PVal
  | pfloat : Int → PVal
  | pbool : Bool → PVal
  | pbytes : List Nat → PVal
  | pstr : String → PVal
  | pdict : List (String × PVal) → PVal
  | pmap : List (Nat × PVal) → PVal

/-- Embeds a Python dict assignment d[k] = v: an existing key keeps its
    position and gets the new value, a new key is appended. -/
def dictInsert {K V : Type} [DecidableEq K] : List (K × V) → K → V → List (K × V)
  | [], k, v => [(k, v)]
  | (k', v') :: rest, k, v =>
      if k' = k then (k, v) :: rest else (k', v') :: dictInsert rest k v

/-- Embeds struct.unpack of a big-endian signed byte (format >b). -/
def signedByte (b : Nat) : Int := if b < 128 then (b : Int) else (b : Int) - 256

/-- Big-endian 16-bit value from two bytes (struct format >H). -/
def be16 (hi lo : Nat) : Nat := hi * 256 + lo

/-- Big-endian 32-bit value from four bytes (struct format >I). -/
def be32 (a b c d : Nat) : Nat := ((a * 256 + b) * 256 + c) * 256 + d

/-- Uppercase hexadecimal digit for a value below 16. -/
def hexDigitUpper (n : Nat) : Char :=
  if n < 10 then Char.ofNat (48 + n) else Char.ofNat (55 + n)

/-- Embeds bytes.hex().upper(): two uppercase hex digits per byte. -/
def bytesHexUpper (bs : List Nat) : String :=
  String.mk ((bs.map fun b => [hexDigitUpper (b / 16), hexDigitUpper (b % 16)]).join)

namespace Tlv

/-- Embeds parse_tlv from tlv.py: reads tag and one-byte length, checks that
    the declared value fits, returns (tag, length, value, consumed). -/
def parse_tlv (data : List Nat) : Except PyErr (Nat × Nat × List Nat × Nat) :=
  if data.length < 2 then .error .tlvParseError
  else
    let tag := data.getD 0 0
    let length := data.getD 1 0
    let consumed := 2 + length
    if data.length < consumed then .error .tlvParseError
    else .ok (tag, length, (data.drop 2).take length, consumed)

/-- Embeds the helper _parse_single_parameter_value from tlv.py. -/
def _parse_single_parameter_value (param_type : Nat) (value_bytes : List Nat) :
    Except PyErr PVal :=
  let base := [("type", PVal.pint param_type), ("raw_value", PVal.pbytes value_bytes)]
  if param_type = 0x01 then      -- PARAM_TYPE_POWER
    if ¬ value_bytes.length = 1 then .error .tlvParseError
    else .ok (.pdict (base ++
      [("value_raw", .pint (value_bytes.getD 0 0)),
       ("value_dbm", .pfloat (value_bytes.getD 0 0))]))
  else if param_type = 0x02 then -- PARAM_TYPE_BUZZER
    if ¬ value_bytes.length = 1 then .error .tlvParseError
    else .ok (.pdict (base ++
      [("is_on", .pbool (value_bytes.getD 0 0 ≠ 0)),
       ("setting", .pint (value_bytes.getD 0 0))]))
  else if param_type = 0x03 then -- PARAM_TYPE_TAG_FILTER_TIME
    if ¬ value_bytes.length = 1 then .error .tlvParseError
    else .ok (.pdict (base ++ [("time_seconds", .pint (value_bytes.getD 0 0))]))
  else if param_type = 0x04 then -- PARAM_TYPE_MODEM
    if ¬ value_bytes.length = 4 then .error .tlvParseError
    else .ok (.pdict (base ++
      [("mixer_gain", .pint (value_bytes.getD 0 0)),
       ("if_amp_gain", .pint (value_bytes.getD 1 0)),
       ("threshold", .pint (be16 (value_bytes.getD 2 0) (value_bytes.getD 3 0)))]))
  else .ok (.pdict base)         -- unhandled type: warning only, base dict

/-- Embeds the helper _parse_operation_tlv_value from tlv.py: the response
    layout password(4) op_type(1) membank(1) word_count(1) data, with the
    data sliced by word_count times two. -/
def _parse_operation_tlv_value (value_bytes : List Nat) (declared_length : Nat) :
    Except PyErr PVal :=
  if declared_length < 7 then .error .tlvParseError
  else if value_bytes.length < 7 then .error .tlvParseError -- struct.error path
  else
    let password := value_bytes.take 4
    let op_type := value_bytes.getD 4 0
    let membank := value_bytes.getD 5 0
    let word_count := value_bytes.getD 6 0
    let expected_data_len := word_count * 2
    let actual_data_len := declared_length - 7
    let data_bytes := value_bytes.drop 7
    let base := [("raw_value", PVal.pbytes value_bytes),
                 ("password", PVal.pbytes password),
                 ("op_type", PVal.pint op_type),
                 ("membank", PVal.pint membank),
                 ("word_count", PVal.pint word_count)]
    if actual_data_len < expected_data_len then
      .ok (.pdict (base ++ [("data", .pbytes (data_bytes.take expected_data_len)),
                            ("data_truncated", .pbool true)]))
    else if expected_data_len < actual_data_len then
      .ok (.pdict (base ++ [("data", .pbytes (data_bytes.take expected_data_len)),
                            ("extra_data", .pbytes (data_bytes.drop expected_data_len))]))
    else
      .ok (.pdict (base ++ [("data", .pbytes data_bytes)]))

theorem parse_tlv_ok_facts (data : List Nat) (t l : Nat) (v : List Nat) (c : Nat)
    (h : parse_tlv data = .ok (t, l, v, c)) :
    v.length < data.length ∧ 2 ≤ c ∧ c ≤ data.length := by
  unfold parse_tlv at h
  by_cases h2 : data.length < 2
  · simp [h2] at h
  · simp [h2] at h
    by_cases h3 : data.length < 2 + (data[1]?.getD 0)
    · simp [h3] at h
    · simp [h3] at h
      obtain ⟨ht, hl, hv, hc⟩ := h
      refine ⟨?_, ?_, ?_⟩
      · rw [← hv]
        simp only [List.length_take, List.length_drop]
        omega
      · omega
      · omega

end Tlv

namespace Tlv

mutual

/-- Embeds the while loop of parse_tlv_sequence from tlv.py.  The accumulator
    is the parsed_tlvs dict; each iteration parses one TLV, dispatches on the
    tag exactly as the source's if/elif chain does (the chain is the mutually
    recursive tagValueParse below), and assigns the parsed value under the
    tag. -/
def parse_tlv_sequence_go (data : List Nat) (acc : List (Nat × PVal)) :
    Except PyErr (List (Nat × PVal)) :=
  if hdone : data = [] then .ok acc
  else
    match hp : parse_tlv data with
    | .error _ => .error .tlvParseError
    | .ok (tag, length, value, consumed) =>
      match tagValueParse tag length value with
      | .error e => .error e
      | .ok v => parse_tlv_sequence_go (data.drop consumed) (dictInsert acc tag v)
termination_by (data.length, 0)
decreasing_by
  · have hf := parse_tlv_ok_facts data tag length value consumed hp
    apply Prod.Lex.left
    exact hf.1
  · have hf := parse_tlv_ok_facts data tag length value consumed hp
    apply Prod.Lex.left
    simp only [List.length_drop]
    have : 1 ≤ data.length := by
      cases data
      · exact absurd rfl hdone
      · simp
    omega

/-- Embeds the if/elif dispatch on the TLV tag inside parse_tlv_sequence. -/
def tagValueParse (tag length : Nat) (value : List Nat) : Except PyErr PVal :=
  if tag = 0x07 ∧ length = 1 then        -- TAG_STATUS
    .ok (.pint (value.getD 0 0))
  else if tag = 0x20 ∧ length = 3 then   -- TAG_SOFTWARE_VERSION
    .ok (.pdict [("major", .pint (value.getD 0 0)),
                 ("minor", .pint (value.getD 1 0)),
                 ("revision", .pint (value.getD 2 0))])
  else if tag = 0x21 ∧ length = 1 then   -- TAG_DEVICE_TYPE
    .ok (.pint (value.getD 0 0))
  else if tag = 0x05 ∧ length = 1 then   -- TAG_RSSI, signed byte
    .ok (.pint (signedByte (value.getD 0 0)))
  else if tag = 0x06 then                -- TAG_TIME
    if length = 7 then
      .ok (.pdict [("year", .pint (be16 (value.getD 0 0) (value.getD 1 0))),
                   ("month", .pint (value.getD 2 0)),
                   ("day", .pint (value.getD 3 0)),
                   ("hour", .pint (value.getD 4 0)),
                   ("minute", .pint (value.getD 5 0)),
                   ("second", .pint (value.getD 6 0))])
    else if length = 4 then
      .ok (.pint (be32 (value.getD 0 0) (value.getD 1 0)
        (value.getD 2 0) (value.getD 3 0)))
    else .ok (.pbytes value)
  else if tag = 0x26 then                -- TAG_SINGLE_PARAMETER
    if length < 1 then .error .tlvParseError
    else _parse_single_parameter_value (value.getD 0 0) (value.drop 1)
  else if tag = 0x08 then                -- TAG_OPERATION
    _parse_operation_tlv_value value length
  else if tag = 0x50 then                -- TAG_SINGLE_TAG, nested sequence
    (parse_tlv_sequence_go value []).map PVal.pmap
  else if tag = 0x01 then                -- TAG_EPC
    .ok (.pstr (bytesHexUpper value))
  else if tag = 0x02 then                -- TAG_USER_DATA
    .ok (.pbytes value)
  else if tag = 0x04 then                -- TAG_TID_DATA
    .ok (.pbytes value)
  else if tag = 0x03 then                -- TAG_RESERVE_DATA
    .ok (.pbytes value)
  else                                   -- unknown tag: raw bytes
    .ok (.pbytes value)
termination_by (value.length, 1)
decreasing_by
  apply Prod.Lex.right'
  · exact Nat.le_refl _
  · exact Nat.zero_lt_one

end

/-- Embeds parse_tlv_sequence from tlv.py: run the loop with an empty dict. -/
def parse_tlv_sequence (data : List Nat) : Except PyErr (List (Nat × PVal)) :=
  parse_tlv_sequence_go data []

/-- Embeds build_tlv from tlv.py. -/
def build_tlv (tag : Nat) (value : List Nat) : Except PyErr (List Nat) :=
  if 255 < value.length then .error .valueError
  else if 255 < tag then .error .valueError
  else .ok (tag :: value.length :: value)

/-- Embeds build_single_parameter_tlv from tlv.py. -/
def build_single_parameter_tlv (param_type : Nat) (param_value_bytes : List Nat) :
    Except PyErr (List Nat) :=
  if 255 < param_type then .error .valueError
  else build_tlv 0x26 (param_type :: param_value_bytes)

/-- Embeds build_power_parameter_tlv from tlv.py: a value outside 0..30 is
    only rejected when it is also outside 0..255; inside 31..255 the source
    merely logs a warning and proceeds. -/
def build_power_parameter_tlv (power_dbm : Int) : Except PyErr (List Nat) :=
  if ¬ (0 ≤ power_dbm ∧ power_dbm ≤ 30) ∧ ¬ (0 ≤ power_dbm ∧ power_dbm ≤ 255) then
    .error .valueError
  else build_single_parameter_tlv 0x01 [power_dbm.toNat]

/-- Embeds build_operation_tlv from tlv.py: request layout
    password(4) op_type(1) membank(1) word_ptr(2, big-endian) word_count(1)
    with write data appended only for the write op.  The struct.pack range
    conditions on the one-byte fields become explicit checks (struct.error is
    re-raised as ValueError by the source). -/
def build_operation_tlv (op_type membank word_ptr word_count : Nat)
    (password : List Nat) (write_data : Option (List Nat)) :
    Except PyErr (List Nat) :=
  if ¬ password.length = 4 then .error .valueError
  else if ¬ word_ptr ≤ 0xFFFF then .error .valueError
  else if ¬ word_count ≤ 0xFF then .error .valueError
  else
    let dataPart : Except PyErr (List Nat) :=
      if op_type = 0x01 then                  -- OP_TYPE_WRITE
        match write_data with
        | none => .error .valueError
        | some d => if ¬ d.length = word_count * 2 then .error .valueError else .ok d
      else
        match write_data with
        | some _ => .error .valueError
        | none => .ok []
    match dataPart with
    | .error e => .error e
    | .ok d =>
        if ¬ (op_type ≤ 255 ∧ membank ≤ 255) then .error .valueError
        else build_tlv 0x08
          (password ++ [op_type, membank, word_ptr / 256, word_ptr % 256, word_count] ++ d)

end Tlv

namespace CommandsTags

/-- Embeds _encode_tag_operation_tlv from commands_tags.py: layout
    op_type(1) bank(1) word_ptr(2) word_count(2) password(4) [data].
    The source rejects banks outside 0..3, word_ptr above 0xFFFF and
    word_count outside 1..0xFFFF; a falsy password (None or empty) is replaced
    by four zero bytes; data is required for write with length word_count
    times two, and is ignored (with a warning) for other ops. -/
def _encode_tag_operation_tlv (op_type bank word_ptr word_count : Nat)
    (password : Option (List Nat)) (data : Option (List Nat)) :
    Except PyErr (List Nat) :=
  if ¬ (bank = 0 ∨ bank = 1 ∨ bank = 2 ∨ bank = 3) then .error .valueError
  else if ¬ word_ptr ≤ 0xFFFF then .error .valueError
  else if word_count = 0 ∨ ¬ word_count ≤ 0xFFFF then .error .valueError
  else if ¬ op_type ≤ 255 then .error .valueError  -- bytearray.append range
  else
    let pwdPart : Except PyErr (List Nat) :=
      match password with
      | some p =>
          if p = [] then .ok [0, 0, 0, 0]
          else if ¬ p.length = 4 then .error .valueError
          else .ok p
      | none => .ok [0, 0, 0, 0]
    match pwdPart with
    | .error e => .error e
    | .ok pwd =>
        let dataPart : Except PyErr (List Nat) :=
          if op_type = 0x01 then               -- OP_TYPE_WRITE
            match data with
            | none => .error .valueError
            | some d =>
                if ¬ d.length = word_count * 2 then .error .valueError else .ok d
          else .ok []                          -- non-write: data only warned about
        match dataPart with
        | .error e => .error e
        | .ok d =>
            Tlv.build_tlv 0x08
              ([op_type, bank, word_ptr / 256, word_ptr % 256,
                word_count / 256, word_count % 256] ++ pwd ++ d)

/-- Embeds encode_lock_tag_request from commands_tags.py: delegates to
    _encode_tag_operation_tlv with op_type lock (0x02), bank = lock_type,
    word_ptr = 0, word_count = 0, no data; a ValueError from the helper is
    re-raised as ProtocolError. -/
def encode_lock_tag_request (lock_type : Nat) (password : Option (List Nat)) :
    Except PyErr (List Nat) :=
  match _encode_tag_operation_tlv 0x02 lock_type 0 0 password none with
  | .ok r => .ok r
  | .error .valueError => .error .protocolError
  | .error e => .error e

end CommandsTags

/-- C4 divergence: encode_lock_tag_request never succeeds.  For every
    lock_type and every password it raises ProtocolError, because the helper
    rejects word_count 0 outright (and additionally rejects every lock_type
    above 3 as an invalid memory bank), while lock requests always pass
    word_count 0. -/
theorem encode_lock_tag_request_always_fails (lock_type : Nat)
    (password : Option (List Nat)) :
    CommandsTags.encode_lock_tag_request lock_type password =
      Except.error PyErr.protocolError := by
  unfold CommandsTags.encode_lock_tag_request CommandsTags._encode_tag_operation_tlv
  by_cases h : lock_type = 0 ∨ lock_type = 1 ∨ lock_type = 2 ∨ lock_type = 3
  · simp [h]
  · simp [h]

/-- Python truthiness of a codec value: zero numbers, empty containers and
    empty strings are falsy. -/
def pyTruthy : PVal → Bool
  | .pint n => n ≠ 0
  | .pfloat n => n ≠ 0
  | .pbool b => b
  | .pbytes bs => bs ≠ []
  | .pstr s => s ≠ ""
  | .pdict d => !d.isEmpty
  | .pmap m => !m.isEmpty

/-- Embeds bytes.decode with encoding ascii and errors replace: bytes below
    0x80 map to themselves, other bytes map to the replacement character. -/
def asciiReplace (bs : List Nat) : String :=
  String.mk (bs.map fun b => if b < 128 then Char.ofNat b else Char.ofNat 0xFFFD)

/-- Embeds the .decode attribute access on a codec value: only bytes values
    have a decode method; anything else raises AttributeError. -/
def pyDecodeAsciiReplace : PVal → Except PyErr String
  | .pbytes bs => .ok (asciiReplace bs)
  | _ => .error .attributeError

/-- Embeds the DeviceInfo dataclass from base_protocol.py (the fields the
    version decoder fills). -/
structure DeviceInfo where
  software_version : String
  hardware_version : String
  deriving DecidableEq, Repr

namespace CommandsDevice

/-- Embeds decode_get_version_response from commands_device.py: fetches tags
    0x20 and 0x21 from the parsed map, and calls .decode(ascii, replace) on
    each value that is truthy, defaulting to the string N/A. -/
def decode_get_version_response (parsed_params : List (Nat × PVal)) :
    Except PyErr DeviceInfo :=
  let sw_version_bytes := parsed_params.lookup 0x20
  let hw_version_bytes := parsed_params.lookup 0x21
  let swRes : Except PyErr String :=
    match sw_version_bytes with
    | some v => if pyTruthy v then pyDecodeAsciiReplace v else .ok "N/A"
    | none => .ok "N/A"
  match swRes with
  | .error e => .error e
  | .ok sw =>
      let hwRes : Except PyErr String :=
        match hw_version_bytes with
        | some v => if pyTruthy v then pyDecodeAsciiReplace v else .ok "N/A"
        | none => .ok "N/A"
      match hwRes with
      | .error e => .error e
      | .ok hw => .ok ⟨sw, hw⟩

end CommandsDevice

/-- C7 divergence: on the parameter bytes of the get-version response of
    scenario E1 (status TLV 0x07 value 0, software-version TLV 0x20 with the
    three bytes 04 00 01, device-type TLV 0x21 value 5), the TLV codec
    produces a field dict for tag 0x20 and an integer for tag 0x21, and
    decode_get_version_response then raises AttributeError when it calls
    .decode on the dict, instead of returning a DeviceInfo record. -/
theorem decode_get_version_response_raises_on_parsed_map :
    Tlv.parse_tlv_sequence
        [0x07, 0x01, 0x00, 0x20, 0x03, 0x04, 0x00, 0x01, 0x21, 0x01, 0x05] =
      Except.ok [(0x07, PVal.pint 0),
        (0x20, PVal.pdict [("major", PVal.pint 4), ("minor", PVal.pint 0),
          ("revision", PVal.pint 1)]),
        (0x21, PVal.pint 5)] ∧
    CommandsDevice.decode_get_version_response
        [(0x07, PVal.pint 0),
         (0x20, PVal.pdict [("major", PVal.pint 4), ("minor", PVal.pint 0),
           ("revision", PVal.pint 1)]),
         (0x21, PVal.pint 5)] =
      Except.error PyErr.attributeError := by
  constructor
  · simp [Tlv.parse_tlv_sequence, Tlv.parse_tlv_sequence_go, Tlv.parse_tlv,
      Tlv.tagValueParse, dictInsert]
  · simp [CommandsDevice.decode_get_version_response, List.lookup, pyTruthy,
      pyDecodeAsciiReplace]

/-- Helper: getD past an appended prefix indexes into the suffix. -/
theorem getD_append_offset (l₁ l₂ : List Nat) (n d : Nat) :
    (l₁ ++ l₂).getD (l₁.length + n) d = l₂.getD n d := by
  induction l₁ with
  | nil => simp
  | cons a t ih =>
      simp only [List.cons_append, List.length_cons]
      rw [show t.length + 1 + n = t.length + n + 1 by omega]
      simpa using ih

/-- Helper: on any value of length at least 7, the operation-TLV parser
    succeeds and its dict starts with raw_value, the 4-byte password, op_type,
    membank and the word_count byte read at offset 6. -/
theorem parse_operation_value_base (value : List Nat) (h7 : 7 ≤ value.length) :
    ∃ rest, Tlv._parse_operation_tlv_value value value.length =
      Except.ok (.pdict ([("raw_value", PVal.pbytes value),
        ("password", PVal.pbytes (value.take 4)),
        ("op_type", PVal.pint (value.getD 4 0)),
        ("membank", PVal.pint (value.getD 5 0)),
        ("word_count", PVal.pint (value.getD 6 0))] ++ rest)) := by
  simp only [Tlv._parse_operation_tlv_value]
  rw [if_neg (by omega), if_neg (by omega)]
  by_cases h1 : value.length - 7 < value.getD 6 0 * 2
  · rw [if_pos h1]
    exact ⟨_, rfl⟩
  · rw [if_neg h1]
    by_cases h2 : value.getD 6 0 * 2 < value.length - 7
    · rw [if_pos h2]
      exact ⟨_, rfl⟩
    · rw [if_neg h2]
      exact ⟨_, rfl⟩

/-- C2 counterexample: building an operation TLV for a read of six words at
    word pointer 2 and parsing its value back with the operation-TLV parser
    does not reconstruct the inputs: the parsed word_count is 0 (the high byte
    of word_ptr), not 6, no word_ptr field exists at all, and the low pointer
    byte and the true word count end up in extra_data. -/
theorem operation_tlv_roundtrip_fails :
    Tlv.build_operation_tlv 0 1 2 6 [0, 0, 0, 0] none =
      Except.ok [0x08, 9, 0, 0, 0, 0, 0, 1, 0, 2, 6] ∧
    Tlv._parse_operation_tlv_value [0, 0, 0, 0, 0, 1, 0, 2, 6] 9 =
      Except.ok (.pdict [("raw_value", .pbytes [0, 0, 0, 0, 0, 1, 0, 2, 6]),
        ("password", .pbytes [0, 0, 0, 0]),
        ("op_type", .pint 0),
        ("membank", .pint 1),
        ("word_count", .pint 0),
        ("data", .pbytes []),
        ("extra_data", .pbytes [2, 6])]) ∧
    (PVal.pint 0) ≠ (PVal.pint 6) :=
  ⟨rfl, rfl, by simp⟩

/-- C2 amended: for every argument tuple accepted by build_operation_tlv
    (4-byte password, word_ptr at most 0xFFFF, word_count at most 0xFF,
    one-byte op_type and membank, write data of length word_count*2 with total
    value below the one-byte TLV limit exactly when op_type is write, no data
    otherwise), parsing the value of the produced TLV with the operation-TLV
    parser succeeds and reconstructs password, op_type and mem_bank
    bit-exactly; word_ptr is not reconstructed (the parser reads the 7-byte
    response layout, which has no word-pointer field) and the parsed
    word_count field holds the high byte of word_ptr instead of word_count. -/
theorem operation_tlv_roundtrip_core_fields
    (op_type membank word_ptr word_count : Nat) (password : List Nat)
    (write_data : Option (List Nat))
    (hpw : password.length = 4) (hptr : word_ptr ≤ 0xFFFF) (hwc : word_count ≤ 0xFF)
    (hop : op_type ≤ 255) (hmb : membank ≤ 255)
    (hwd : match write_data with
           | some d => op_type = 1 ∧ d.length = word_count * 2 ∧ 9 + d.length ≤ 255
           | none => ¬ op_type = 1) :
    Tlv.build_operation_tlv op_type membank word_ptr word_count password write_data =
      Except.ok (0x08 ::
        (password ++ ([op_type, membank, word_ptr / 256, word_ptr % 256,
          word_count] ++ write_data.getD [])).length ::
        (password ++ ([op_type, membank, word_ptr / 256, word_ptr % 256,
          word_count] ++ write_data.getD []))) ∧
    ∃ rest,
      Tlv._parse_operation_tlv_value
          (password ++ ([op_type, membank, word_ptr / 256, word_ptr % 256,
            word_count] ++ write_data.getD []))
          (password ++ ([op_type, membank, word_ptr / 256, word_ptr % 256,
            word_count] ++ write_data.getD [])).length =
        Except.ok (.pdict ([("raw_value", PVal.pbytes (password ++ ([op_type,
            membank, word_ptr / 256, word_ptr % 256, word_count] ++
            write_data.getD []))),
          ("password", PVal.pbytes password),
          ("op_type", PVal.pint op_type),
          ("membank", PVal.pint membank),
          ("word_count", PVal.pint (word_ptr / 256))] ++ rest)) := by
  set tail : List Nat := [op_type, membank, word_ptr / 256, word_ptr % 256,
    word_count] ++ write_data.getD [] with htail
  clear_value tail
  have hvlen : (password ++ tail).length = 9 + (write_data.getD []).length := by
    simp [htail, hpw]
    omega
  have ht4 : (password ++ tail).take 4 = password := by
    rw [← hpw]
    exact List.take_left _ _
  have hg4 : (password ++ tail).getD 4 0 = op_type := by
    rw [show (4 : Nat) = password.length + 0 by omega, getD_append_offset, htail]
    rfl
  have hg5 : (password ++ tail).getD 5 0 = membank := by
    rw [show (5 : Nat) = password.length + 1 by omega, getD_append_offset, htail]
    rfl
  have hg6 : (password ++ tail).getD 6 0 = word_ptr / 256 := by
    rw [show (6 : Nat) = password.length + 2 by omega, getD_append_offset, htail]
    rfl
  have hbuild : Tlv.build_operation_tlv op_type membank word_ptr word_count
      password write_data =
      Except.ok (0x08 :: (password ++ tail).length :: (password ++ tail)) := by
    match hw : write_data with
    | none =>
        have hwd1 : ¬ op_type = 1 := hwd
        simp only [Option.getD_none, List.append_nil] at htail
        simp [Tlv.build_operation_tlv, Tlv.build_tlv, hwd1, hop, hmb, hpw,
          hptr, hwc, htail]
    | some d =>
        have h4 : op_type = 1 ∧ d.length = word_count * 2 ∧ 9 + d.length ≤ 255 := hwd
        obtain ⟨hop1, hlen1, h3⟩ := h4
        simp only [Option.getD_some] at htail
        have hnl : ¬ 255 < password.length + (5 + d.length) := by omega
        simp [Tlv.build_operation_tlv, Tlv.build_tlv, hop1, hlen1, hop, hmb,
          hpw, hptr, hwc, htail, hnl]
        omega
  refine ⟨hbuild, ?_⟩
  obtain ⟨rest, hrest⟩ := parse_operation_value_base (password ++ tail) (by omega)
  rw [ht4, hg4, hg5, hg6] at hrest
  exact ⟨rest, hrest⟩

/-- Witness for operation_tlv_roundtrip_core_fields at a concrete input. -/
theorem operation_tlv_roundtrip_core_fields_witness :
    Tlv.build_operation_tlv 0 1 2 6 [0, 0, 0, 0] none =
      Except.ok (0x08 ::
        (([0, 0, 0, 0] : List Nat) ++ ([0, 1, 2 / 256, 2 % 256, 6] ++
          (none : Option (List Nat)).getD [])).length ::
        (([0, 0, 0, 0] : List Nat) ++ ([0, 1, 2 / 256, 2 % 256, 6] ++
          (none : Option (List Nat)).getD []))) ∧
    ∃ rest,
      Tlv._parse_operation_tlv_value
          (([0, 0, 0, 0] : List Nat) ++ ([0, 1, 2 / 256, 2 % 256, 6] ++
            (none : Option (List Nat)).getD []))
          (([0, 0, 0, 0] : List Nat) ++ ([0, 1, 2 / 256, 2 % 256, 6] ++
            (none : Option (List Nat)).getD [])).length =
        Except.ok (.pdict ([("raw_value", PVal.pbytes (([0, 0, 0, 0] : List Nat) ++
            ([0, 1, 2 / 256, 2 % 256, 6] ++ (none : Option (List Nat)).getD []))),
          ("password", PVal.pbytes [0, 0, 0, 0]),
          ("op_type", PVal.pint 0),
          ("membank", PVal.pint 1),
          ("word_count", PVal.pint (2 / 256))] ++ rest)) :=
  operation_tlv_roundtrip_core_fields 0 1 2 6 [0, 0, 0, 0] none
    rfl (by decide) (by decide) (by decide) (by decide) (by decide)

/-- Helper: a dict assignment makes the assigned key map to the new value. -/
theorem lookup_dictInsert_self (m : List (Nat × PVal)) (k : Nat) (v : PVal) :
    (dictInsert m k v).lookup k = some v := by
  induction m with
  | nil => simp [dictInsert]
  | cons p rest ih =>
      obtain ⟨k', v'⟩ := p
      by_cases h : k' = k
      · simp [dictInsert, h]
      · have hbf : (k == k') = false :=
          beq_eq_false_iff_ne.mpr fun he => h he.symm
        simp [dictInsert, h, List.lookup, hbf, ih]

/-- Helper: a dict assignment leaves every other key unchanged. -/
theorem lookup_dictInsert_ne (m : List (Nat × PVal)) (k k' : Nat) (v : PVal)
    (h : k' ≠ k) : (dictInsert m k v).lookup k' = m.lookup k' := by
  have hbf : (k' == k) = false := beq_eq_false_iff_ne.mpr h
  induction m with
  | nil => simp [dictInsert, List.lookup, hbf]
  | cons p rest ih =>
      obtain ⟨k₀, v₀⟩ := p
      by_cases h0 : k₀ = k
      · simp [dictInsert, h0, List.lookup, hbf]
      · simp [dictInsert, h0, List.lookup, ih]

/-- Byte stream of a concatenation of well-formed TLV units: each unit is its
    tag, the length of its value, then the value. -/
def tlvConcat (l : List (Nat × List Nat)) : List Nat :=
  l.foldr (fun tv acc => tv.1 :: tv.2.length :: (tv.2 ++ acc)) []

/-- Reference outcome of parsing a concatenation of well-formed TLV units:
    parse each unit's value with the tag dispatch and assign it into the dict
    left to right, stopping at the first per-tag error. -/
def tlvSequenceResult : List (Nat × List Nat) → List (Nat × PVal) →
    Except PyErr (List (Nat × PVal))
  | [], acc => .ok acc
  | tv :: rest, acc =>
      match Tlv.tagValueParse tv.1 tv.2.length tv.2 with
      | .error e => .error e
      | .ok pv => tlvSequenceResult rest (dictInsert acc tv.1 pv)

/-- Helper: parse_tlv on a well-formed unit followed by more bytes. -/
theorem parse_tlv_cons (t : Nat) (v rest : List Nat) :
    Tlv.parse_tlv (t :: v.length :: (v ++ rest)) =
      Except.ok (t, v.length, v, 2 + v.length) := by
  unfold Tlv.parse_tlv
  rw [if_neg (by simp)]
  rw [if_neg (by simp; omega)]
  simp [List.take_left]

/-- Helper: the drop past a well-formed unit lands on the following bytes. -/
theorem drop_tlv_cons (t : Nat) (v rest : List Nat) :
    (t :: v.length :: (v ++ rest)).drop (2 + v.length) = rest := by
  rw [show 2 + v.length = v.length + 1 + 1 by omega]
  simp [List.drop_succ_cons, List.drop_left]

/-- Helper: one successful loop iteration of the sequence parser. -/
theorem parse_tlv_sequence_go_cons_ok (t : Nat) (v rest : List Nat)
    (acc : List (Nat × PVal)) (pv : PVal)
    (h : Tlv.tagValueParse t v.length v = .ok pv) :
    Tlv.parse_tlv_sequence_go (t :: v.length :: (v ++ rest)) acc =
      Tlv.parse_tlv_sequence_go rest (dictInsert acc t pv) := by
  conv_lhs => rw [Tlv.parse_tlv_sequence_go.eq_def]
  rw [dif_neg (by simp), parse_tlv_cons]
  simp only [h, drop_tlv_cons]

/-- Helper: one failing loop iteration of the sequence parser. -/
theorem parse_tlv_sequence_go_cons_err (t : Nat) (v rest : List Nat)
    (acc : List (Nat × PVal)) (e : PyErr)
    (h : Tlv.tagValueParse t v.length v = .error e) :
    Tlv.parse_tlv_sequence_go (t :: v.length :: (v ++ rest)) acc =
      Except.error e := by
  conv_lhs => rw [Tlv.parse_tlv_sequence_go.eq_def]
  rw [dif_neg (by simp), parse_tlv_cons]
  simp only [h]

/-- Helper: on a concatenation of well-formed units the loop agrees with the
    reference outcome. -/
theorem parse_tlv_sequence_go_concat (l : List (Nat × List Nat))
    (acc : List (Nat × PVal)) :
    Tlv.parse_tlv_sequence_go (tlvConcat l) acc = tlvSequenceResult l acc := by
  induction l generalizing acc with
  | nil =>
      rw [show tlvConcat [] = [] from rfl]
      rw [Tlv.parse_tlv_sequence_go.eq_def]
      simp [tlvSequenceResult]
  | cons tv rest ih =>
      obtain ⟨t, v⟩ := tv
      show Tlv.parse_tlv_sequence_go (t :: v.length :: (v ++ tlvConcat rest)) acc = _
      cases htv : Tlv.tagValueParse t v.length v with
      | error e =>
          rw [parse_tlv_sequence_go_cons_err t v (tlvConcat rest) acc e htv]
          simp [tlvSequenceResult, htv]
      | ok pv =>
          rw [parse_tlv_sequence_go_cons_ok t v (tlvConcat rest) acc pv htv, ih]
          simp [tlvSequenceResult, htv]

/-- Helper: when every unit parses, the reference outcome succeeds, and keys
    of tags absent from the units are untouched. -/
theorem tlvSequenceResult_ok (l : List (Nat × List Nat)) (acc : List (Nat × PVal))
    (hok : ∀ tv ∈ l, ∃ q, Tlv.tagValueParse tv.1 tv.2.length tv.2 = .ok q) :
    ∃ m, tlvSequenceResult l acc = .ok m ∧
      ∀ t, (∀ tv ∈ l, tv.1 ≠ t) → m.lookup t = acc.lookup t := by
  induction l generalizing acc with
  | nil => exact ⟨acc, rfl, fun t _ => rfl⟩
  | cons hd tl ih =>
      obtain ⟨q, hq⟩ := hok hd (List.mem_cons_self hd tl)
      obtain ⟨m, hm, hlk⟩ := ih (dictInsert acc hd.1 q)
        (fun tv htv => hok tv (List.mem_cons_of_mem hd htv))
      refine ⟨m, ?_, ?_⟩
      · simp [tlvSequenceResult, hq, hm]
      · intro t hne
        rw [hlk t (fun tv htv => hne tv (List.mem_cons_of_mem hd htv))]
        exact lookup_dictInsert_ne acc hd.1 t q
          (Ne.symm (hne hd (List.mem_cons_self hd tl)))

/-- Helper: the reference outcome composes across an append once the first
    part succeeds. -/
theorem tlvSequenceResult_append_ok (a b : List (Nat × List Nat))
    (acc m : List (Nat × PVal)) (h : tlvSequenceResult a acc = .ok m) :
    tlvSequenceResult (a ++ b) acc = tlvSequenceResult b m := by
  induction a generalizing acc with
  | nil =>
      simp only [tlvSequenceResult, Except.ok.injEq] at h
      rw [List.nil_append, h]
  | cons hd tl ih =>
      cases htv : Tlv.tagValueParse hd.1 hd.2.length hd.2 with
      | error e => simp [tlvSequenceResult, htv] at h
      | ok pv =>
          simp only [tlvSequenceResult, htv] at h
          rw [List.cons_append]
          simp only [tlvSequenceResult, htv]
          exact ih _ h

/-- C10: for every input that is a concatenation of well-formed TLV units in
    which some tag occurs (possibly several times before the part l2 that no
    longer contains it), parse_tlv_sequence succeeds provided every unit
    parses individually, and the returned map holds, for that tag, exactly
    the parsed value of the last occurrence; earlier occurrences are silently
    discarded. -/
theorem parse_tlv_sequence_last_duplicate_wins
    (l1 l2 : List (Nat × List Nat)) (t : Nat) (v : List Nat) (pv : PVal)
    (hok1 : ∀ tv ∈ l1, ∃ q, Tlv.tagValueParse tv.1 tv.2.length tv.2 = .ok q)
    (hok2 : ∀ tv ∈ l2, ∃ q, Tlv.tagValueParse tv.1 tv.2.length tv.2 = .ok q)
    (hpv : Tlv.tagValueParse t v.length v = .ok pv)
    (hnot : ∀ tv ∈ l2, tv.1 ≠ t) :
    ∃ m, Tlv.parse_tlv_sequence (tlvConcat (l1 ++ (t, v) :: l2)) = .ok m ∧
      m.lookup t = some pv := by
  obtain ⟨m1, hm1, -⟩ := tlvSequenceResult_ok l1 [] hok1
  obtain ⟨m, hm, hlk⟩ := tlvSequenceResult_ok l2 (dictInsert m1 t pv) hok2
  refine ⟨m, ?_, ?_⟩
  · show Tlv.parse_tlv_sequence_go _ [] = _
    rw [parse_tlv_sequence_go_concat, tlvSequenceResult_append_ok l1 ((t, v) :: l2) [] m1 hm1]
    simp only [tlvSequenceResult, hpv]
    exact hm
  · rw [hlk t hnot]
    exact lookup_dictInsert_self m1 t pv

/-- Witness for parse_tlv_sequence_last_duplicate_wins: two device-type TLVs
    with values 5 and 7; the parsed map holds 7. -/
theorem parse_tlv_sequence_last_duplicate_wins_witness :
    ∃ m, Tlv.parse_tlv_sequence (tlvConcat [(0x21, [5]), (0x21, [7])]) = .ok m ∧
      m.lookup 0x21 = some (PVal.pint 7) :=
  parse_tlv_sequence_last_duplicate_wins [(0x21, [5])] [] 0x21 [7] (PVal.pint 7)
    (by intro tv htv; simp at htv; subst htv; exact ⟨PVal.pint 5, by simp [Tlv.tagValueParse]⟩)
    (by intro tv htv; simp at htv)
    (by simp [Tlv.tagValueParse])
    (by intro tv htv; simp at htv)

/-- Argument value for encode_set_single_param_request (the source takes Any
    and checks with isinstance). -/
inductive ParamValue where
  | int : Int → ParamValue
  | bool : Bool → ParamValue
  | bytes : List Nat → ParamValue
  deriving DecidableEq, Repr

/-- Python truthiness of a ParamValue. -/
def ParamValue.truthy : ParamValue → Bool
  | .int i => i ≠ 0
  | .bool b => b
  | .bytes bs => !bs.isEmpty

namespace CommandsParams

/-- Embeds encode_set_single_param_request from commands_params.py.  Note the
    power branch accepts 0..33 (the source comments: assuming 0-33 dBm range
    for CPH), not 0..30. -/
def encode_set_single_param_request (param_type : Nat) (value : ParamValue) :
    Except PyErr (List Nat) :=
  let param_data : Except PyErr (List Nat) :=
    if param_type = 0x01 then            -- PARAM_TYPE_POWER
      match value with
      | .int i => if ¬ (0 ≤ i ∧ i ≤ 33) then .error .valueError else .ok [i.toNat]
      | _ => .error .valueError
    else if param_type = 0x02 then       -- PARAM_TYPE_BUZZER
      .ok [if value.truthy then 1 else 0]
    else if param_type = 0x03 then       -- PARAM_TYPE_TAG_FILTER_TIME
      match value with
      | .int i => if ¬ (0 ≤ i ∧ i ≤ 255) then .error .valueError else .ok [i.toNat]
      | _ => .error .valueError
    else if param_type = 0x04 then       -- PARAM_TYPE_MODEM
      match value with
      | .bytes b => if ¬ b.length = 4 then .error .valueError else .ok b
      | _ => .error .valueError
    else .error .valueError
  match param_data with
  | .error e => .error e
  | .ok pd => Tlv.build_tlv 0x26 (param_type :: pd)

end CommandsParams

/-- C6 divergence: power value 31 lies outside the spec range 0..30, yet both
    power encoders accept it and produce the TLV bytes 26 02 01 1F: the
    command-layer encoder checks 0..33 and the TLV-layer builder checks
    0..255 (merely logging a warning above 30). -/
theorem power_encoders_accept_31 :
    CommandsParams.encode_set_single_param_request 0x01 (.int 31) =
      Except.ok [0x26, 0x02, 0x01, 31] ∧
    Tlv.build_power_parameter_tlv 31 = Except.ok [0x26, 0x02, 0x01, 31] :=
  ⟨rfl, rfl⟩

/-- Big-endian byte list of a 32-bit value (struct format >I). -/
def u32be (n : Nat) : List Nat :=
  [n / 16777216 % 256, n / 65536 % 256, n / 256 % 256, n % 256]

/-- Big-endian byte list of a 16-bit value (struct format >H). -/
def u16be (n : Nat) : List Nat := [n / 256, n % 256]

/-- Embeds the TransportParams dataclass from parameters.py.  The source
    stores the four IP-address fields as dotted-quad strings; they are
    modelled here by their four octets (the canonical content of the
    string). -/
structure TransportParams where
  transport_type : Nat
  uart_baud_rate : Nat
  net_dhcp_flag : Nat
  net_ip_addr : Nat × Nat × Nat × Nat
  net_subnet_mask : Nat × Nat × Nat × Nat
  net_gateway : Nat × Nat × Nat × Nat
  net_local_port : Nat
  net_remote_ip_addr : Nat × Nat × Nat × Nat
  net_remote_port : Nat
  heartbeat_interval : Nat
  deriving DecidableEq, Repr

namespace TransportParams

/-- Embeds TransportParams._ip_to_bytes: four octets, each a byte. -/
def _ip_to_bytes (q : Nat × Nat × Nat × Nat) : Except PyErr (List Nat) :=
  if q.1 ≤ 255 ∧ q.2.1 ≤ 255 ∧ q.2.2.1 ≤ 255 ∧ q.2.2.2 ≤ 255 then
    .ok [q.1, q.2.1, q.2.2.1, q.2.2.2]
  else .error .valueError

/-- Embeds TransportParams.encode: pack format >BII for the prefix
    (transport_type u8, uart_baud u32, dhcp_flag u32 - note four bytes, not
    one), the four IP quads, then >HHB (local port, remote port, heartbeat).
    Total length 30.  struct range failures become ValueError as in the
    source. -/
def encode (p : TransportParams) : Except PyErr (List Nat) :=
  if ¬ p.transport_type ≤ 255 then .error .valueError
  else if ¬ p.uart_baud_rate ≤ 4294967295 then .error .valueError
  else if ¬ p.net_dhcp_flag ≤ 4294967295 then .error .valueError
  else if ¬ p.net_local_port ≤ 65535 then .error .valueError
  else if ¬ p.net_remote_port ≤ 65535 then .error .valueError
  else if ¬ p.heartbeat_interval ≤ 255 then .error .valueError
  else
    match _ip_to_bytes p.net_ip_addr, _ip_to_bytes p.net_subnet_mask,
          _ip_to_bytes p.net_gateway, _ip_to_bytes p.net_remote_ip_addr with
    | .ok ip, .ok mask, .ok gw, .ok rip =>
        .ok ([p.transport_type] ++ u32be p.uart_baud_rate ++
          u32be p.net_dhcp_flag ++ ip ++ mask ++ gw ++ rip ++
          u16be p.net_local_port ++ u16be p.net_remote_port ++
          [p.heartbeat_interval])
    | _, _, _, _ => .error .valueError

/-- Embeds TransportParams.decode: rejects any length other than the fixed 30
    and unpacks the fields at their fixed offsets. -/
def decode (data : List Nat) : Except PyErr TransportParams :=
  if ¬ data.length = 30 then .error .valueError
  else
    .ok { transport_type := data.getD 0 0
          uart_baud_rate := be32 (data.getD 1 0) (data.getD 2 0)
            (data.getD 3 0) (data.getD 4 0)
          net_dhcp_flag := be32 (data.getD 5 0) (data.getD 6 0)
            (data.getD 7 0) (data.getD 8 0)
          net_ip_addr := (data.getD 9 0, data.getD 10 0, data.getD 11 0, data.getD 12 0)
          net_subnet_mask := (data.getD 13 0, data.getD 14 0, data.getD 15 0, data.getD 16 0)
          net_gateway := (data.getD 17 0, data.getD 18 0, data.getD 19 0, data.getD 20 0)
          net_remote_ip_addr := (data.getD 21 0, data.getD 22 0, data.getD 23 0, data.getD 24 0)
          net_local_port := be16 (data.getD 25 0) (data.getD 26 0)
          net_remote_port := be16 (data.getD 27 0) (data.getD 28 0)
          heartbeat_interval := data.getD 29 0 }

end TransportParams

/-- C5 counterexample: the encoding of the source's default TransportParams
    value is 30 bytes, not the 26 the claim states (the dhcp flag is packed
    as a u32, and the remote IP precedes the two ports). -/
theorem transport_params_encode_is_30_bytes :
    TransportParams.encode
        { transport_type := 0, uart_baud_rate := 115200, net_dhcp_flag := 0,
          net_ip_addr := (192, 168, 1, 178), net_subnet_mask := (255, 255, 255, 0),
          net_gateway := (192, 168, 1, 1), net_local_port := 6000,
          net_remote_ip_addr := (192, 168, 1, 100), net_remote_port := 6001,
          heartbeat_interval := 0 } =
      Except.ok [0, 0, 1, 0xC2, 0, 0, 0, 0, 0, 192, 168, 1, 178, 255, 255, 255, 0,
        192, 168, 1, 1, 192, 168, 1, 100, 0x17, 0x70, 0x17, 0x71, 0] ∧
    ([0, 0, 1, 0xC2, 0, 0, 0, 0, 0, 192, 168, 1, 178, 255, 255, 255, 0,
        192, 168, 1, 1, 192, 168, 1, 100, 0x17, 0x70, 0x17, 0x71, 0] : List Nat).length ≠ 26 :=
  ⟨rfl, by decide⟩

/-- C5 amended: for every legal TransportParams value (fields within their
    packed ranges), encode produces exactly 30 bytes laid out
    transport_type(u8), uart_baud(u32), dhcp_flag(u32), ip(4), mask(4), gw(4),
    remote_ip(4), local_port(u16), remote_port(u16), heartbeat(u8);
    decode(encode(x)) = x; and decode rejects every byte string whose length
    differs from 30. -/
theorem transport_params_roundtrip (p : TransportParams) (bad : List Nat)
    (h1 : p.transport_type ≤ 255) (h2 : p.uart_baud_rate ≤ 4294967295)
    (h3 : p.net_dhcp_flag ≤ 4294967295)
    (h4 : p.net_ip_addr.1 ≤ 255 ∧ p.net_ip_addr.2.1 ≤ 255 ∧
      p.net_ip_addr.2.2.1 ≤ 255 ∧ p.net_ip_addr.2.2.2 ≤ 255)
    (h5 : p.net_subnet_mask.1 ≤ 255 ∧ p.net_subnet_mask.2.1 ≤ 255 ∧
      p.net_subnet_mask.2.2.1 ≤ 255 ∧ p.net_subnet_mask.2.2.2 ≤ 255)
    (h6 : p.net_gateway.1 ≤ 255 ∧ p.net_gateway.2.1 ≤ 255 ∧
      p.net_gateway.2.2.1 ≤ 255 ∧ p.net_gateway.2.2.2 ≤ 255)
    (h7 : p.net_remote_ip_addr.1 ≤ 255 ∧ p.net_remote_ip_addr.2.1 ≤ 255 ∧
      p.net_remote_ip_addr.2.2.1 ≤ 255 ∧ p.net_remote_ip_addr.2.2.2 ≤ 255)
    (h8 : p.net_local_port ≤ 65535) (h9 : p.net_remote_port ≤ 65535)
    (h10 : p.heartbeat_interval ≤ 255) (hbad : ¬ bad.length = 30) :
    (TransportParams.encode p).map List.length = Except.ok 30 ∧
    (TransportParams.encode p).bind TransportParams.decode = Except.ok p ∧
    TransportParams.decode bad = Except.error PyErr.valueError := by
  obtain ⟨tt, baud, dhcp, ⟨i1, i2, i3, i4⟩, ⟨m1, m2, m3, m4⟩, ⟨g1, g2, g3, g4⟩,
    lp, ⟨r1, r2, r3, r4⟩, rp, hb⟩ := p
  replace h1 : tt ≤ 255 := h1
  replace h2 : baud ≤ 4294967295 := h2
  replace h3 : dhcp ≤ 4294967295 := h3
  replace h8 : lp ≤ 65535 := h8
  replace h9 : rp ≤ 65535 := h9
  replace h10 : hb ≤ 255 := h10
  replace h4 : i1 ≤ 255 ∧ i2 ≤ 255 ∧ i3 ≤ 255 ∧ i4 ≤ 255 := h4
  replace h5 : m1 ≤ 255 ∧ m2 ≤ 255 ∧ m3 ≤ 255 ∧ m4 ≤ 255 := h5
  replace h6 : g1 ≤ 255 ∧ g2 ≤ 255 ∧ g3 ≤ 255 ∧ g4 ≤ 255 := h6
  replace h7 : r1 ≤ 255 ∧ r2 ≤ 255 ∧ r3 ≤ 255 ∧ r4 ≤ 255 := h7
  obtain ⟨ha1, ha2, ha3, ha4⟩ := h4
  obtain ⟨hb1, hb2, hb3, hb4⟩ := h5
  obtain ⟨hc1, hc2, hc3, hc4⟩ := h6
  obtain ⟨hd1, hd2, hd3, hd4⟩ := h7
  have henc : TransportParams.encode
      ⟨tt, baud, dhcp, (i1, i2, i3, i4), (m1, m2, m3, m4), (g1, g2, g3, g4),
        lp, (r1, r2, r3, r4), rp, hb⟩ =
      Except.ok [tt, baud / 16777216 % 256, baud / 65536 % 256, baud / 256 % 256,
        baud % 256, dhcp / 16777216 % 256, dhcp / 65536 % 256, dhcp / 256 % 256,
        dhcp % 256, i1, i2, i3, i4, m1, m2, m3, m4, g1, g2, g3, g4,
        r1, r2, r3, r4, lp / 256, lp % 256, rp / 256, rp % 256, hb] := by
    unfold TransportParams.encode TransportParams._ip_to_bytes
    rw [if_neg (not_not_intro h1), if_neg (not_not_intro h2),
      if_neg (not_not_intro h3), if_neg (not_not_intro h8),
      if_neg (not_not_intro h9), if_neg (not_not_intro h10),
      if_pos ⟨ha1, ha2, ha3, ha4⟩, if_pos ⟨hb1, hb2, hb3, hb4⟩,
      if_pos ⟨hc1, hc2, hc3, hc4⟩, if_pos ⟨hd1, hd2, hd3, hd4⟩]
    simp [u32be, u16be]
  rw [henc]
  refine ⟨by simp [Except.map], ?_, ?_⟩
  · show TransportParams.decode _ = _
    unfold TransportParams.decode
    rw [if_neg (not_not_intro (by simp))]
    simp only [Except.ok.injEq, TransportParams.mk.injEq, Prod.mk.injEq]
    refine ⟨rfl, ?_, ?_, ⟨rfl, rfl, rfl, rfl⟩, ⟨rfl, rfl, rfl, rfl⟩,
      ⟨rfl, rfl, rfl, rfl⟩, ?_, ⟨rfl, rfl, rfl, rfl⟩, ?_, rfl⟩
    · show ((baud / 16777216 % 256 * 256 + baud / 65536 % 256) * 256 +
        baud / 256 % 256) * 256 + baud % 256 = baud
      omega
    · show ((dhcp / 16777216 % 256 * 256 + dhcp / 65536 % 256) * 256 +
        dhcp / 256 % 256) * 256 + dhcp % 256 = dhcp
      omega
    · show lp / 256 * 256 + lp % 256 = lp
      omega
    · show rp / 256 * 256 + rp % 256 = rp
      omega
  · unfold TransportParams.decode
    rw [if_pos hbad]

/-- Witness for transport_params_roundtrip at the default parameter value and
    the empty byte string. -/
theorem transport_params_roundtrip_witness :
    (TransportParams.encode
        { transport_type := 0, uart_baud_rate := 115200, net_dhcp_flag := 0,
          net_ip_addr := (192, 168, 1, 178), net_subnet_mask := (255, 255, 255, 0),
          net_gateway := (192, 168, 1, 1), net_local_port := 6000,
          net_remote_ip_addr := (192, 168, 1, 100), net_remote_port := 6001,
          heartbeat_interval := 0 }).map List.length = Except.ok 30 ∧
    (TransportParams.encode
        { transport_type := 0, uart_baud_rate := 115200, net_dhcp_flag := 0,
          net_ip_addr := (192, 168, 1, 178), net_subnet_mask := (255, 255, 255, 0),
          net_gateway := (192, 168, 1, 1), net_local_port := 6000,
          net_remote_ip_addr := (192, 168, 1, 100), net_remote_port := 6001,
          heartbeat_interval := 0 }).bind TransportParams.decode =
      Except.ok
        { transport_type := 0, uart_baud_rate := 115200, net_dhcp_flag := 0,
          net_ip_addr := (192, 168, 1, 178), net_subnet_mask := (255, 255, 255, 0),
          net_gateway := (192, 168, 1, 1), net_local_port := 6000,
          net_remote_ip_addr := (192, 168, 1, 100), net_remote_port := 6001,
          heartbeat_interval := 0 } ∧
    TransportParams.decode [] = Except.error PyErr.valueError :=
  transport_params_roundtrip _ []
    (by decide) (by decide) (by decide) (by decide) (by decide) (by decide)
    (by decide) (by decide) (by decide) (by decide) (by decide)

/-- State of an asyncio future as the dispatcher observes it: pending (not
    done), resolved with a result, failed with an exception, or cancelled.
    An awaiter of a future in any state other than pending resumes rather
    than hangs; on a cancelled future it observes cancellation. -/
inductive FutState where
  | pending
  | resolvedOk
  | resolvedErr
  | cancelled
  deriving DecidableEq, Repr

/-- Embeds asyncio.Future.done(): every state except pending is done. -/
def FutState.done : FutState → Bool
  | .pending => false
  | _ => true

namespace Dispatcher

/-- Embeds Dispatcher.cleanup from dispatcher.py restricted to the pending
    map (the loop body under the response lock): every future in the map that
    is not done is cancelled, then the map is cleared.  The first component
    is the final state of each future that was in the map (what its awaiter
    observes), the second is the new pending map. -/
def cleanup (pending : List (Nat × FutState)) :
    List (Nat × FutState) × List (Nat × FutState) :=
  (pending.map fun cf => (cf.1, if cf.2.done then cf.2 else .cancelled), [])

end Dispatcher

/-- C8: after cleanup, the pending map is empty, and every command awaiter
    whose future was pending at that moment observes cancellation (the
    DispatcherClosed outcome of the spec) rather than hanging. -/
theorem dispatcher_cleanup_cancels_pending (m : List (Nat × FutState)) :
    (Dispatcher.cleanup m).2 = [] ∧
    (∀ code f, (code, f) ∈ m → f = FutState.pending →
      (code, FutState.cancelled) ∈ (Dispatcher.cleanup m).1) ∧
    (∀ cf ∈ (Dispatcher.cleanup m).1, cf.2.done = true) := by
  refine ⟨rfl, ?_, ?_⟩
  · intro code f hm hp
    exact List.mem_map.mpr ⟨(code, f), hm, by simp [hp, FutState.done]⟩
  · intro cf hcf
    obtain ⟨⟨c0, f0⟩, -, heq⟩ := List.mem_map.mp hcf
    cases f0 <;> simp [← heq, FutState.done]

/-- Witness for dispatcher_cleanup_cancels_pending: one pending get-version
    awaiter is cancelled by cleanup and the map is cleared. -/
theorem dispatcher_cleanup_cancels_pending_witness :
    (Dispatcher.cleanup [(0x40, FutState.pending)]).2 = [] ∧
    (0x40, FutState.cancelled) ∈ (Dispatcher.cleanup [(0x40, FutState.pending)]).1 :=
  ⟨(dispatcher_cleanup_cancels_pending [(0x40, FutState.pending)]).1,
   (dispatcher_cleanup_cancels_pending [(0x40, FutState.pending)]).2.1
     0x40 FutState.pending (by simp) rfl⟩
